import Mathlib

/-!
# Verification of the `gamelocker` API client (`gamelocker/api.py`)

Shallow embedding of the client in `gamelocker/api.py`.  Pure computations
(parameter building, URL construction, the pagination arithmetic) become Lean
functions; the HTTP transport is an explicit parameter (`Transport`) mapping
the index of each issued request to either an HTTP error status or a parsed
JSON:API document; the mutable `self` of the Python class becomes explicit
state passing on the `Gamelocker` record; the trace of issued requests is
returned alongside each operation's result.

The helper module `gamelocker.datatypes` (functions `data_to_object` and
`link_to_object`) is not part of the embedded source; `_get` is therefore
parameterized over the two functions (`d2o` and `link` below), which is all
the claims about `_get` need.
-/

set_option autoImplicit false

/-- A Python scalar value that can occur as a query-parameter value in this
client: an integer (`page[limit]`, `page[offset]`) or a string (everything
else; `datetime` values are converted to strings before insertion). -/
inductive PyVal where
  | int (n : Int)
  | str (s : String)
deriving DecidableEq

/-- A Python `dict` of query parameters, as an insertion-ordered
association list. -/
abbrev Params := List (String × PyVal)

/-- Dict assignment `params[k] = v`: overwrite the first binding of `k`, or append a new
binding — the lookup/update behaviour of a Python `dict`. -/
def setParam : Params → String → PyVal → Params
  | [], k, v => [(k, v)]
  | p :: rest, k, v => if p.1 = k then (k, v) :: rest else p :: setParam rest k v

/-- Dict lookup `params.get(k)`: first binding of `k`, if any. -/
def getParam : Params → String → Option PyVal
  | [], _ => none
  | p :: rest, k => if p.1 = k then some p.2 else getParam rest k

/-- A `datetime.datetime` value (naive, as the client treats it). -/
structure Datetime where
  year : Nat
  month : Nat
  day : Nat
  hour : Nat
  minute : Nat
  second : Nat
  microsecond : Nat
deriving DecidableEq

/-- Zero-pad the decimal representation of `n` to `width` digits. -/
def padNum (width n : Nat) : String :=
  String.mk (List.replicate (width - (toString n).length) '0') ++ toString n

/-- Python `datetime.isoformat()`: `YYYY-MM-DDTHH:MM:SS[.ffffff]`, the microsecond
part omitted when it is zero. -/
def Datetime.isoformat (d : Datetime) : String :=
  padNum 4 d.year ++ ("-" ++ padNum 2 d.month ++ "-" ++ padNum 2 d.day ++ "T" ++
    padNum 2 d.hour ++ ":" ++ padNum 2 d.minute ++ ":" ++ padNum 2 d.second ++
    (if d.microsecond = 0 then "" else "." ++ padNum 6 d.microsecond))

/-- The `createdAtStart`/`createdAtEnd` arguments of `matches`: either a
`datetime.datetime` or an already-formatted string. -/
inductive DtOrStr where
  | dt (d : Datetime)
  | str (s : String)
deriving DecidableEq

/-- Python truthiness of a `datetime`-or-`str` value: a `datetime` object is
always truthy, a string is truthy iff non-empty. -/
def DtOrStr.truthy : DtOrStr → Bool
  | .dt _ => true
  | .str s => s != ""

/-- The string sent for a `createdAt` bound: `isoformat()` of a `datetime`,
the string itself otherwise (the `isinstance` conversion in `matches`). -/
def DtOrStr.value : DtOrStr → String
  | .dt d => d.isoformat
  | .str s => s

/-- A parsed JSON:API response document over raw-entity type `ρ`: an optional
`included` section and a `data` section that is a single entity or a list. -/
structure Document (ρ : Type) where
  included : Option (List ρ)
  data : ρ ⊕ List ρ
deriving DecidableEq

/-- The `Gamelocker` client state: `apikey`, `_apiurl`, `title`, `region`. -/
structure Gamelocker where
  apikey : String
  apiurl : String
  title : String
  region : String
deriving DecidableEq

/-- Constructor `Gamelocker.__init__`: stores the key, derives the base URL from the
datacenter, and leaves title and region empty. -/
def Gamelocker.construct (apikey datacenter : String) : Gamelocker :=
  { apikey := apikey
    apiurl := "https://api." ++ datacenter ++ ".gamelockerapp.com/"
    title := ""
    region := "" }

/-- One issued HTTP GET request: the full URL handed to `requests.get`,
the headers, and the query parameters. -/
structure Request where
  url : String
  headers : List (String × String)
  params : Params
deriving DecidableEq

/-- The headers `_req` attaches to every request. -/
def headersOf (g : Gamelocker) : List (String × String) :=
  [("Authorization", "Bearer " ++ g.apikey),
   ("X-TITLE-ID", g.title),
   ("Accept", "application/vnd.api+json")]

/-- The HTTP transport: for the `n`-th request issued (0-based), either a
non-2xx status code (`Except.error`, which `raise_for_status` turns into an
exception) or the parsed JSON document. -/
abbrev Transport (ρ : Type) := Nat → Except Nat (Document ρ)

section Client

variable {ρ α : Type}

/-- Method `_req`: build the request from base URL, method path, headers
and params, append it to the trace, and return the transport's response for
it. -/
def Gamelocker.req (tr : Transport ρ) (g : Gamelocker) (method : String)
    (params : Params) (trace : List Request) :
    List Request × Except Nat (Document ρ) :=
  (trace ++ [{ url := g.apiurl ++ method, headers := headersOf g, params := params }],
   tr trace.length)

/-- The `includes.append(data_to_object(incl))` loop of `_get`. -/
def buildIncludes (d2o : ρ → α) : List ρ → List α → List α
  | [], acc => acc
  | incl :: rest, acc => buildIncludes d2o rest (acc ++ [d2o incl])

/-- The "collect related data" phase of `_get`: materialize every entity of
the `included` section, in document order; empty when the section is absent. -/
def collectIncluded (d2o : ρ → α) (doc : Document ρ) : List α :=
  match doc.included with
  | some incls => buildIncludes d2o incls []
  | none => []

/-- The `elements.append(link_to_object(data_to_object(dat), includes))` loop
of `_get` over a list-shaped `data` section. -/
def buildElements (d2o : ρ → α) (link : α → List α → α) (includes : List α) :
    List ρ → List α → List α
  | [], acc => acc
  | dat :: rest, acc => buildElements d2o link includes rest (acc ++ [link (d2o dat) includes])

/-- The document-processing part of `_get`: materialize `included` into a
pool, then materialize-and-link `data`, keeping its single/list shape. -/
def getResult (d2o : ρ → α) (link : α → List α → α) (doc : Document ρ) : α ⊕ List α :=
  let includes := collectIncluded d2o doc
  match doc.data with
  | .inr dats => .inr (buildElements d2o link includes dats [])
  | .inl dat => .inl (link (d2o dat) includes)

/-- Method `_get`: request `shards/<region>/<endpoint>/<elid>` and
process the returned document. -/
def Gamelocker.get (d2o : ρ → α) (link : α → List α → α) (tr : Transport ρ)
    (g : Gamelocker) (endpoint elid : String) (params : Params)
    (trace : List Request) : List Request × Except Nat (α ⊕ List α) :=
  let res := Gamelocker.req tr g
    ("shards/" ++ g.region ++ "/" ++ endpoint ++ "/" ++ elid) params trace
  (res.1, res.2.map (getResult d2o link))

/-- Method `Vainglory`: set the title to the only supported game and the
region to the given shard string; the result is the (mutated) client itself. -/
def Gamelocker.Vainglory (g : Gamelocker) (region : String) : Gamelocker :=
  { g with title := "semc-vainglory", region := region }

/-- Method `status`: GET the fixed `status` path with no parameters and
return the raw document; the client state is unchanged. -/
def Gamelocker.status (tr : Transport ρ) (g : Gamelocker) :
    Gamelocker × List Request × Except Nat (Document ρ) :=
  (g, Gamelocker.req tr g "status" [] [])

/-- Method `match`: fetch one match by id (`match` is a Lean keyword, so
the definition is named `matchOne`); the client state is unchanged. -/
def Gamelocker.matchOne (d2o : ρ → α) (link : α → List α → α) (tr : Transport ρ)
    (g : Gamelocker) (elid : String) :
    Gamelocker × List Request × Except Nat (α ⊕ List α) :=
  (g, Gamelocker.get d2o link tr g "matches" elid [] [])

/-- Method `player`: fetch one player by id; the client state is
unchanged. -/
def Gamelocker.player (d2o : ρ → α) (link : α → List α → α) (tr : Transport ρ)
    (g : Gamelocker) (elid : String) :
    Gamelocker × List Request × Except Nat (α ⊕ List α) :=
  (g, Gamelocker.get d2o link tr g "players" elid [] [])

end Client

/-- A raised Python exception: an HTTP error from `raise_for_status` (with
its status code), or the `TypeError` of `matches += <non-list>` when a batch
document's `data` is a single entity. -/
inductive PyErr where
  | http (status : Nat)
  | typeErr
deriving DecidableEq

/-- The API batch cap `max_limit = 50`, "as set by the API". -/
def maxLimit : Int := 50

/-- Python `range(start, stop, step)` for a positive `step`. -/
def pyRange (start stop step : Int) : List Int :=
  (List.range ((stop - start + step - 1) / step).toNat).map
    (fun (i : Nat) => start + step * (i : Int))

/-- The effective `limit` after the truthiness default in `matches`:
`if limit: ... else: limit = max_limit`. -/
def effLimit : Option Int → Int
  | some n => if n = 0 then maxLimit else n
  | none => maxLimit

/-- The effective `offset` after the truthiness default in `matches`:
`if offset: ... else: offset = 0`. -/
def effOffset : Option Int → Int
  | some n => if n = 0 then 0 else n
  | none => 0

/-- The params dict built by `matches` before its pagination loop: each
`if <arg>: params[<key>] = <value>` statement in source order, with Python
truthiness (`None` and `0` and `""` are falsy; a `datetime` is truthy). -/
def baseParams (limit offset : Option Int) (sort player team : Option String)
    (createdAtStart createdAtEnd : Option DtOrStr) : Params :=
  let params : Params := []
  let params := match limit with
    | some n => if n = 0 then params else setParam params "page[limit]" (.int n)
    | none => params
  let params := match offset with
    | some n => if n = 0 then params else setParam params "page[offset]" (.int n)
    | none => params
  let params := match sort with
    | some s => if s = "" then params else setParam params "sort" (.str s)
    | none => params
  let params := match player with
    | some s => if s = "" then params else setParam params "filter[playerNames]" (.str s)
    | none => params
  let params := match team with
    | some s => if s = "" then params else setParam params "filter[teamNames]" (.str s)
    | none => params
  let params := match createdAtStart with
    | some v => if v.truthy then setParam params "filter[createdAt-start]" (.str v.value) else params
    | none => params
  let params := match createdAtEnd with
    | some v => if v.truthy then setParam params "filter[createdAt-end]" (.str v.value) else params
    | none => params
  params

section Loop

variable {ρ α : Type}

/-- The `for batch in range(0, limit, max_limit)` loop of `matches`: set
`page[limit]` and `page[offset]`, call `_get`, extend the accumulator, and
decrease the remaining limit by 50.  An HTTP error propagates immediately; a
single-entity batch document raises `TypeError` at the `+=`. -/
def matchesLoop (d2o : ρ → α) (link : α → List α → α) (tr : Transport ρ)
    (g : Gamelocker) (offsetV : Int) :
    List Int → Int → Params → List Request → List α →
    List Request × Except PyErr (List α)
  | [], _, _, trace, acc => (trace, .ok acc)
  | batch :: rest, limitV, params, trace, acc =>
    let params := setParam params "page[limit]" (.int (min limitV maxLimit))
    let params := setParam params "page[offset]" (.int (batch + offsetV))
    let res := Gamelocker.get d2o link tr g "matches" "" params trace
    match res.2 with
    | .error e => (res.1, .error (.http e))
    | .ok (.inl _) => (res.1, .error .typeErr)
    | .ok (.inr es) =>
      matchesLoop d2o link tr g offsetV rest (limitV - maxLimit) params res.1 (acc ++ es)

/-- Method `matches`: build the params dict from the supplied arguments,
default `limit` to 50 and `offset` to 0 when falsy, and run the batched
pagination loop from an empty trace and accumulator. -/
def Gamelocker.matches (d2o : ρ → α) (link : α → List α → α) (tr : Transport ρ)
    (g : Gamelocker) (limit offset : Option Int) (sort player team : Option String)
    (createdAtStart createdAtEnd : Option DtOrStr) :
    List Request × Except PyErr (List α) :=
  matchesLoop d2o link tr g (effOffset offset)
    (pyRange 0 (effLimit limit) maxLimit) (effLimit limit)
    (baseParams limit offset sort player team createdAtStart createdAtEnd) [] []

/-- Method `matches` as a state-passing operation: the client state is
unchanged by the call. -/
def Gamelocker.matchesOp (d2o : ρ → α) (link : α → List α → α) (tr : Transport ρ)
    (g : Gamelocker) (limit offset : Option Int) (sort player team : Option String)
    (createdAtStart createdAtEnd : Option DtOrStr) :
    Gamelocker × List Request × Except PyErr (List α) :=
  (g, Gamelocker.matches d2o link tr g limit offset sort player team
        createdAtStart createdAtEnd)

end Loop

/-- The params dict as it stands after `i` iterations of the pagination loop
of `matches`, starting from `params`: each iteration overwrites `page[limit]`
with `min(remaining, 50)` and `page[offset]` with `batch + offset`. -/
def loopParams (params : Params) (offsetV b0 r : Int) : Nat → Params
  | 0 => params
  | i + 1 =>
    setParam
      (setParam (loopParams params offsetV b0 r i)
        "page[limit]" (.int (min (r - 50 * (i : Int)) 50)))
      "page[offset]" (.int (b0 + 50 * (i : Int) + offsetV))

/-- A concrete client for concrete evaluations: key `"key"`, datacenter
`"dc01"`, Vainglory title, region `"na"`. -/
def gTest : Gamelocker := (Gamelocker.construct "key" "dc01").Vainglory "na"

/-- A concrete transport over `ρ = α = Nat`: the `i`-th request succeeds with
a document whose `data` is the one-element list `[i]` and no `included`
section. -/
def trNat : Transport Nat := fun i => .ok { included := none, data := .inr [i] }

/-- A concrete transport that fails every request with HTTP status 404. -/
def trFail : Transport Nat := fun _ => .error 404

/-- The request a `matches` batch issues when the params dict stands at
`params`: the list-call path (`elid = ""`) and the standard headers. -/
def matchesRequest (g : Gamelocker) (params : Params) : Request where
  url := g.apiurl ++ ("shards/" ++ g.region ++ "/" ++ "matches" ++ "/" ++ "")
  headers := headersOf g
  params := params

/-! ## Dictionary lemmas -/

theorem getParam_setParam_self (ps : Params) (k : String) (v : PyVal) :
    getParam (setParam ps k v) k = some v := by
  induction ps with
  | nil => simp [setParam, getParam]
  | cons p rest ih =>
    by_cases h : p.1 = k
    · simp [setParam, getParam, h]
    · simp [setParam, getParam, h, ih]

theorem getParam_setParam_ne (ps : Params) (k q : String) (v : PyVal) (h : q ≠ k) :
    getParam (setParam ps k v) q = getParam ps q := by
  induction ps with
  | nil => simp [setParam, getParam, Ne.symm h]
  | cons p rest ih =>
    by_cases hp : p.1 = k
    · simp [setParam, getParam, hp, Ne.symm h]
    · simp [setParam, getParam, hp, ih]

/-! ## `_get` loop lemmas -/

theorem buildIncludes_eq {ρ α : Type} (d2o : ρ → α) (incls : List ρ) (acc : List α) :
    buildIncludes d2o incls acc = acc ++ incls.map d2o := by
  induction incls generalizing acc with
  | nil => simp [buildIncludes]
  | cons x rest ih => simp [buildIncludes, ih]

theorem buildElements_eq {ρ α : Type} (d2o : ρ → α) (link : α → List α → α)
    (includes : List α) (dats : List ρ) (acc : List α) :
    buildElements d2o link includes dats acc
      = acc ++ dats.map (fun dat => link (d2o dat) includes) := by
  induction dats generalizing acc with
  | nil => simp [buildElements]
  | cons x rest ih => simp [buildElements, ih]

/-! ## Pagination arithmetic lemmas -/

theorem pyRange_zero_length (L : Int) :
    (pyRange 0 L maxLimit).length = ((L + 49) / 50).toNat := by
  simp only [pyRange, maxLimit, List.length_map, List.length_range]
  omega

theorem pyRange_zero_eq (L : Int) :
    pyRange 0 L maxLimit
      = (List.range (((L + 49) / 50).toNat)).map
          (fun (i : Nat) => (0 : Int) + 50 * (i : Int)) := by
  have h : L - 0 + 50 - 1 = L + 49 := by ring
  simp only [pyRange, maxLimit, h]

theorem getParam_loopParams_limit (params : Params) (offsetV b0 r : Int) (i : Nat) :
    getParam (loopParams params offsetV b0 r (i + 1)) "page[limit]"
      = some (.int (min (r - 50 * (i : Int)) 50)) := by
  simp only [loopParams]
  rw [getParam_setParam_ne _ _ _ _ (by decide), getParam_setParam_self]

theorem getParam_loopParams_offset (params : Params) (offsetV b0 r : Int) (i : Nat) :
    getParam (loopParams params offsetV b0 r (i + 1)) "page[offset]"
      = some (.int (b0 + 50 * (i : Int) + offsetV)) := by
  simp only [loopParams]
  rw [getParam_setParam_self]

theorem getParam_loopParams_other (params : Params) (offsetV b0 r : Int) (i : Nat)
    (k : String) (h1 : k ≠ "page[limit]") (h2 : k ≠ "page[offset]") :
    getParam (loopParams params offsetV b0 r i) k = getParam params k := by
  induction i with
  | zero => rfl
  | succ n ih =>
    simp only [loopParams]
    rw [getParam_setParam_ne _ _ _ _ h2, getParam_setParam_ne _ _ _ _ h1, ih]

theorem loopParams_shift (params : Params) (offsetV b0 r : Int) (j : Nat) :
    loopParams (loopParams params offsetV b0 r 1) offsetV (b0 + 50) (r - 50) j
      = loopParams params offsetV b0 r (j + 1) := by
  induction j with
  | zero => rfl
  | succ n ih =>
    have e1 : r - 50 - 50 * (n : Int) = r - 50 * ((n + 1 : Nat) : Int) := by
      push_cast; ring
    have e2 : b0 + 50 + 50 * (n : Int) + offsetV
        = b0 + 50 * ((n + 1 : Nat) : Int) + offsetV := by
      push_cast; ring
    show setParam
        (setParam (loopParams (loopParams params offsetV b0 r 1) offsetV (b0 + 50) (r - 50) n)
          "page[limit]" (PyVal.int (min (r - 50 - 50 * (n : Int)) 50)))
        "page[offset]" (PyVal.int (b0 + 50 + 50 * (n : Int) + offsetV))
      = setParam
        (setParam (loopParams params offsetV b0 r (n + 1))
          "page[limit]" (PyVal.int (min (r - 50 * ((n + 1 : Nat) : Int)) 50)))
        "page[offset]" (PyVal.int (b0 + 50 * ((n + 1 : Nat) : Int) + offsetV))
    rw [ih, e1, e2]

/-! ## Pagination loop characterization -/

theorem matchesLoop_ok {ρ α : Type} (d2o : ρ → α) (link : α → List α → α)
    (tr : Transport ρ) (g : Gamelocker) (offsetV : Int) (n : Nat) (b0 r : Int)
    (params : Params) (trace : List Request) (acc : List α) (res : Nat → List α)
    (hres : ∀ i, i < n → ∃ doc, tr (trace.length + i) = .ok doc
      ∧ getResult d2o link doc = .inr (res i)) :
    matchesLoop d2o link tr g offsetV
        ((List.range n).map (fun (i : Nat) => b0 + 50 * (i : Int))) r params trace acc
      = (trace ++ (List.range n).map (fun (i : Nat) =>
            { url := g.apiurl ++ ("shards/" ++ g.region ++ "/" ++ "matches" ++ "/" ++ ""),
              headers := headersOf g,
              params := loopParams params offsetV b0 r (i + 1) }),
         .ok (acc ++ ((List.range n).map res).flatten)) := by
  induction n generalizing b0 r params trace acc res with
  | zero =>
    simp [matchesLoop]
  | succ m ih =>
    obtain ⟨doc0, hdoc0, hres0⟩ := hres 0 (Nat.succ_pos m)
    rw [Nat.add_zero] at hdoc0
    have hbs : (List.range (m + 1)).map (fun (i : Nat) => b0 + 50 * (i : Int))
        = b0 :: (List.range m).map (fun (i : Nat) => (b0 + 50) + 50 * (i : Int)) := by
      rw [List.range_succ_eq_map, List.map_cons, List.map_map]
      congr 1
      · simp
      · apply List.map_congr_left
        intro i _
        simp only [Function.comp]
        push_cast
        ring
    rw [hbs]
    simp only [matchesLoop, Gamelocker.get, Gamelocker.req, maxLimit]
    rw [hdoc0]
    simp only [Except.map, hres0]
    have hres' : ∀ (req0 : Request), ∀ i, i < m →
        ∃ doc, tr ((trace ++ [req0]).length + i) = .ok doc
          ∧ getResult d2o link doc = .inr (res (i + 1)) := by
      intro req0 i hi
      have h := hres (i + 1) (by omega)
      rwa [show trace.length + (i + 1) = (trace ++ [req0]).length + i by
        simp [List.length_append]; omega] at h
    rw [ih (b0 + 50) (r - 50) _ _ _ (fun i => res (i + 1)) (hres' _)]
    have hP1 : setParam (setParam params "page[limit]" (PyVal.int (min r 50)))
        "page[offset]" (PyVal.int (b0 + offsetV)) = loopParams params offsetV b0 r 1 := by
      simp [loopParams]
    rw [hP1]
    simp only [loopParams_shift]
    rw [List.range_succ_eq_map, List.map_cons, List.map_map, List.map_cons, List.map_map]
    simp [Function.comp, Nat.succ_eq_add_one, List.append_assoc, loopParams_shift]
    rfl

theorem range_map_batch_succ (b0 : Int) (m : Nat) :
    (List.range (m + 1)).map (fun (i : Nat) => b0 + 50 * (i : Int))
      = b0 :: (List.range m).map (fun (i : Nat) => (b0 + 50) + 50 * (i : Int)) := by
  rw [List.range_succ_eq_map, List.map_cons, List.map_map]
  congr 1
  · simp
  · apply List.map_congr_left
    intro i _
    simp only [Function.comp]
    push_cast
    ring


theorem matchesLoop_err {ρ α : Type} (d2o : ρ → α) (link : α → List α → α)
    (tr : Transport ρ) (g : Gamelocker) (offsetV : Int) (n k : Nat) (b0 r : Int)
    (params : Params) (trace : List Request) (acc : List α) (res : Nat → List α) (e : Nat)
    (hk : k < n)
    (hres : ∀ i, i < k → ∃ doc, tr (trace.length + i) = .ok doc
      ∧ getResult d2o link doc = .inr (res i))
    (herr : tr (trace.length + k) = .error e) :
    matchesLoop d2o link tr g offsetV
        ((List.range n).map (fun (i : Nat) => b0 + 50 * (i : Int))) r params trace acc
      = (trace ++ (List.range (k + 1)).map (fun (i : Nat) =>
            { url := g.apiurl ++ ("shards/" ++ g.region ++ "/" ++ "matches" ++ "/" ++ ""),
              headers := headersOf g,
              params := loopParams params offsetV b0 r (i + 1) }),
         .error (.http e)) := by
  revert hk hres herr
  induction k generalizing n b0 r params trace acc res with
  | zero =>
    intro hk hres herr
    obtain ⟨m, rfl⟩ : ∃ m, n = m + 1 := ⟨n - 1, by omega⟩
    rw [Nat.add_zero] at herr
    rw [range_map_batch_succ]
    simp only [matchesLoop, Gamelocker.get, Gamelocker.req, maxLimit]
    rw [herr]
    simp only [Except.map]
    simp [List.range_succ, loopParams]
  | succ kk ih =>
    intro hk hres herr
    obtain ⟨m, rfl⟩ : ∃ m, n = m + 1 := ⟨n - 1, by omega⟩
    obtain ⟨doc0, hdoc0, hres0⟩ := hres 0 (Nat.succ_pos kk)
    rw [Nat.add_zero] at hdoc0
    rw [range_map_batch_succ]
    simp only [matchesLoop, Gamelocker.get, Gamelocker.req, maxLimit]
    rw [hdoc0]
    simp only [Except.map, hres0]
    have hres' : ∀ (req0 : Request), ∀ i, i < kk →
        ∃ doc, tr ((trace ++ [req0]).length + i) = .ok doc
          ∧ getResult d2o link doc = .inr (res (i + 1)) := by
      intro req0 i hi
      have h := hres (i + 1) (by omega)
      rwa [show trace.length + (i + 1) = (trace ++ [req0]).length + i by
        simp [List.length_append]; omega] at h
    have herr' : ∀ (req0 : Request), tr ((trace ++ [req0]).length + kk) = .error e := by
      intro req0
      rwa [show (trace ++ [req0]).length + kk = trace.length + (kk + 1) by
        simp [List.length_append]; omega]
    rw [ih m (b0 + 50) (r - 50) _ _ _ (fun i => res (i + 1)) (by omega) (hres' _) (herr' _)]
    have hP1 : setParam (setParam params "page[limit]" (PyVal.int (min r 50)))
        "page[offset]" (PyVal.int (b0 + offsetV)) = loopParams params offsetV b0 r 1 := by
      simp [loopParams]
    rw [hP1]
    simp only [loopParams_shift]
    conv_rhs => rw [List.range_succ_eq_map, List.map_cons, List.map_map]
    simp [Function.comp, Nat.succ_eq_add_one, List.append_assoc, loopParams_shift]

theorem matchesLoop_mem {ρ α : Type} (d2o : ρ → α) (link : α → List α → α)
    (tr : Transport ρ) (g : Gamelocker) (offsetV : Int) (bs : List Int) (r : Int)
    (params : Params) (trace : List Request) (acc : List α) (req : Request)
    (hmem : req ∈ (matchesLoop d2o link tr g offsetV bs r params trace acc).1) :
    req ∈ trace ∨
      (req.url = g.apiurl ++ ("shards/" ++ g.region ++ "/" ++ "matches" ++ "/" ++ "")
        ∧ req.headers = headersOf g
        ∧ (∃ v, getParam req.params "page[limit]" = some v)
        ∧ (∃ v, getParam req.params "page[offset]" = some v)
        ∧ ∀ q, q ≠ "page[limit]" → q ≠ "page[offset]" →
            getParam req.params q = getParam params q) := by
  induction bs generalizing r params trace acc with
  | nil =>
    left
    simpa [matchesLoop] using hmem
  | cons b rest ih =>
    simp only [matchesLoop, Gamelocker.get, Gamelocker.req, maxLimit] at hmem
    have hbase : req ∈ trace ++ [matchesRequest g
        (setParam (setParam params "page[limit]" (PyVal.int (min r 50)))
          "page[offset]" (PyVal.int (b + offsetV)))] →
        (req ∈ trace ∨
          (req.url = g.apiurl ++ ("shards/" ++ g.region ++ "/" ++ "matches" ++ "/" ++ "")
            ∧ req.headers = headersOf g
            ∧ (∃ v, getParam req.params "page[limit]" = some v)
            ∧ (∃ v, getParam req.params "page[offset]" = some v)
            ∧ ∀ q, q ≠ "page[limit]" → q ≠ "page[offset]" →
                getParam req.params q = getParam params q)) := by
      intro h
      rcases List.mem_append.1 h with h | h
      · exact Or.inl h
      · right
        rcases List.mem_singleton.1 h with rfl
        refine ⟨rfl, rfl, ⟨PyVal.int (min r 50), ?_⟩, ⟨PyVal.int (b + offsetV), ?_⟩, ?_⟩
        · show getParam (setParam (setParam params "page[limit]" (PyVal.int (min r 50)))
            "page[offset]" (PyVal.int (b + offsetV))) "page[limit]" = _
          rw [getParam_setParam_ne _ _ _ _ (by decide), getParam_setParam_self]
        · show getParam (setParam (setParam params "page[limit]" (PyVal.int (min r 50)))
            "page[offset]" (PyVal.int (b + offsetV))) "page[offset]" = _
          rw [getParam_setParam_self]
        · intro q h1 h2
          show getParam (setParam (setParam params "page[limit]" (PyVal.int (min r 50)))
            "page[offset]" (PyVal.int (b + offsetV))) q = getParam params q
          rw [getParam_setParam_ne _ _ _ _ h2, getParam_setParam_ne _ _ _ _ h1]
    rcases htr : tr trace.length with e | doc
    · rw [htr] at hmem
      simp only [Except.map] at hmem
      exact hbase hmem
    · rw [htr] at hmem
      simp only [Except.map] at hmem
      rcases hgr : getResult d2o link doc with a | es
      · rw [hgr] at hmem
        exact hbase hmem
      · rw [hgr] at hmem
        rcases ih _ _ _ _ hmem with h | ⟨hu, hh, hpl, hpo, hother⟩
        · exact hbase h
        · right
          refine ⟨hu, hh, hpl, hpo, ?_⟩
          intro q h1 h2
          rw [hother q h1 h2, getParam_setParam_ne _ _ _ _ h2, getParam_setParam_ne _ _ _ _ h1]

/-! ## Parameter-construction lemmas -/

theorem baseParams_filters_none (limit offset : Option Int) (q : String)
    (h1 : q ≠ "page[limit]") (h2 : q ≠ "page[offset]") :
    getParam (baseParams limit offset none none none none none) q = none := by
  rcases limit with _ | n <;> rcases offset with _ | m <;>
    simp only [baseParams] <;> (try split_ifs) <;>
    simp_all [getParam, setParam, Ne.symm h1, Ne.symm h2]

theorem Datetime.isoformat_ne_empty (d : Datetime) : d.isoformat ≠ "" := by
  intro h
  have h0 : (Datetime.isoformat d).length = 0 := by rw [h]; rfl
  simp [Datetime.isoformat, String.length_append,
    show ("-" : String).length = 1 from rfl] at h0

/-! ## Claim theorems -/

/-- C2: for every fetched document, `_get` first materializes every entity of
the `included` section (when present) into a pool, preserving document order;
then, if `data` is a list, it returns the list of materialized entities of
`data`, in document order, each linked against that pool; if `data` is a
single entity it returns that single materialized linked entity — the shape
of the result always matches the shape of `data`. -/
theorem c2_get_document_shape {ρ α : Type} (d2o : ρ → α) (link : α → List α → α)
    (doc : Document ρ) :
    collectIncluded d2o doc = (doc.included.getD []).map d2o
    ∧ getResult d2o link doc
      = (match doc.data with
          | .inl dat => .inl (link (d2o dat) ((doc.included.getD []).map d2o))
          | .inr dats => .inr (dats.map (fun dat =>
              link (d2o dat) ((doc.included.getD []).map d2o)))) := by
  rcases doc with ⟨incl, data⟩
  have hpool : collectIncluded d2o ⟨incl, data⟩ = (incl.getD []).map d2o := by
    rcases incl with _ | incls <;> simp [collectIncluded, buildIncludes_eq]
  refine ⟨hpool, ?_⟩
  rcases data with dat | dats <;>
    simp_all [getResult, buildElements_eq]

/-- C8: for every client and region string `r`, `Vainglory(r)` sets the
title to the only supported game (`"semc-vainglory"`) and the region to `r`
without validating `r` (the theorem holds for every string), returning the
(same, mutated) client, and leaves the API key and base URL unchanged. -/
theorem c8_vainglory_chain (g : Gamelocker) (r : String) :
    (g.Vainglory r).title = "semc-vainglory"
    ∧ (g.Vainglory r).region = r
    ∧ (g.Vainglory r).apikey = g.apikey
    ∧ (g.Vainglory r).apiurl = g.apiurl :=
  ⟨rfl, rfl, rfl, rfl⟩

/-- C10: the API key and base URL fixed at construction are invariant: no
public operation mutates them — `Vainglory` changes only title and region,
and `status`, `matchOne`, `player` and `matches` return the client state
unchanged (the Python methods contain no assignment to `self`). -/
theorem c10_config_invariant {ρ α : Type} (d2o : ρ → α) (link : α → List α → α)
    (tr : Transport ρ) (g : Gamelocker) (r elid : String)
    (limit offset : Option Int) (sort player team : Option String)
    (cas cae : Option DtOrStr) :
    ((g.Vainglory r).apikey = g.apikey ∧ (g.Vainglory r).apiurl = g.apiurl)
    ∧ (Gamelocker.status (ρ := ρ) tr g).1 = g
    ∧ (Gamelocker.matchOne d2o link tr g elid).1 = g
    ∧ (Gamelocker.player d2o link tr g elid).1 = g
    ∧ (Gamelocker.matchesOp d2o link tr g limit offset sort player team cas cae).1 = g :=
  ⟨⟨rfl, rfl⟩, rfl, rfl, rfl, rfl⟩

theorem baseParams_createdAtStart_dt (limit offset : Option Int)
    (sort player team : Option String) (cae : Option DtOrStr) (d : Datetime) :
    baseParams limit offset sort player team (some (.dt d)) cae
      = baseParams limit offset sort player team (some (.str d.isoformat)) cae := by
  have ht : (d.isoformat != "") = true := by
    simpa [bne_iff_ne] using Datetime.isoformat_ne_empty d
  simp [baseParams, DtOrStr.truthy, DtOrStr.value, ht]

theorem baseParams_createdAtEnd_dt (limit offset : Option Int)
    (sort player team : Option String) (cas : Option DtOrStr) (d : Datetime) :
    baseParams limit offset sort player team cas (some (.dt d))
      = baseParams limit offset sort player team cas (some (.str d.isoformat)) := by
  have ht : (d.isoformat != "") = true := by
    simpa [bne_iff_ne] using Datetime.isoformat_ne_empty d
  simp [baseParams, DtOrStr.truthy, DtOrStr.value, ht]

/-- C7: for every `datetime` value `d`, calling `matches` with
`createdAtStart = d` (respectively `createdAtEnd = d`) produces exactly the
same run — identical requests, identical query parameters, identical result —
as calling it with the already-formatted string `d.isoformat()`. -/
theorem c7_datetime_iso_equiv {ρ α : Type} (d2o : ρ → α) (link : α → List α → α)
    (tr : Transport ρ) (g : Gamelocker) (limit offset : Option Int)
    (sort player team : Option String) (cas cae : Option DtOrStr) (d : Datetime) :
    Gamelocker.matches d2o link tr g limit offset sort player team (some (.dt d)) cae
      = Gamelocker.matches d2o link tr g limit offset sort player team
          (some (.str d.isoformat)) cae
    ∧ Gamelocker.matches d2o link tr g limit offset sort player team cas (some (.dt d))
      = Gamelocker.matches d2o link tr g limit offset sort player team cas
          (some (.str d.isoformat)) := by
  refine ⟨?_, ?_⟩
  · unfold Gamelocker.matches
    rw [baseParams_createdAtStart_dt]
  · unfold Gamelocker.matches
    rw [baseParams_createdAtEnd_dt]

/-- C9 (implicit): calling `matches` with the falsy limit `0` is treated
exactly like omitting `limit`: the whole run is identical to the default run,
and exactly one request is issued, carrying `page[limit] = 50` — for every
transport, since the single batch request is issued before its response is
examined. -/
theorem c9_falsy_limit_default {ρ α : Type} (d2o : ρ → α) (link : α → List α → α)
    (tr : Transport ρ) (g : Gamelocker) (offset : Option Int)
    (sort player team : Option String) (cas cae : Option DtOrStr) :
    Gamelocker.matches d2o link tr g (some 0) offset sort player team cas cae
      = Gamelocker.matches d2o link tr g none offset sort player team cas cae
    ∧ (Gamelocker.matches d2o link tr g (some 0) offset sort player team cas cae).1.map
        (fun rq => getParam rq.params "page[limit]") = [some (PyVal.int 50)] := by
  have heq : Gamelocker.matches d2o link tr g (some 0) offset sort player team cas cae
      = Gamelocker.matches d2o link tr g none offset sort player team cas cae := by
    simp [Gamelocker.matches, effLimit, baseParams]
  refine ⟨heq, ?_⟩
  rw [Gamelocker.matches]
  have hpy : pyRange 0 (effLimit (some 0)) maxLimit = [0] := by decide
  rw [hpy]
  have hkey : ∀ (base : Params) (v w : PyVal), getParam (setParam (setParam base
      "page[limit]" v) "page[offset]" w) "page[limit]" = some v := by
    intro base v w
    rw [getParam_setParam_ne _ _ _ _ (by decide), getParam_setParam_self]
  simp only [matchesLoop, Gamelocker.get, Gamelocker.req, maxLimit, List.length_nil]
  rcases htr : tr 0 with e | doc
  · simp [Except.map, hkey, effLimit, maxLimit]
  · rcases hgr : getResult d2o link doc with a | es
    · simp [Except.map, hgr, hkey, effLimit, maxLimit]
    · simp [Except.map, hgr, hkey, effLimit, maxLimit, matchesLoop]

/-- C1: for every call `matches(limit = L, offset = O)` with `L ≥ 1`
(defaults `L = 50`, `O = 0`) whose batch responses are list-shaped documents,
the client issues exactly `⌈L / 50⌉` sequential requests regardless of how
many results each batch response contains; the `i`-th request (0-based)
carries `page[limit] = min(L - 50 i, 50)` and `page[offset] = O + 50 i`; and
the returned value is the concatenation of the per-batch linked results in
request order. -/
theorem c1_matches_pagination {ρ α : Type} (d2o : ρ → α) (link : α → List α → α)
    (tr : Transport ρ) (g : Gamelocker) (limit offset : Option Int)
    (sort player team : Option String) (cas cae : Option DtOrStr) (res : Nat → List α)
    (hL : 1 ≤ effLimit limit)
    (hres : ∀ i, i < ((effLimit limit + 49) / 50).toNat →
      ∃ doc, tr i = .ok doc ∧ getResult d2o link doc = .inr (res i)) :
    (Gamelocker.matches d2o link tr g limit offset sort player team cas cae).1.length
        = ((effLimit limit + 49) / 50).toNat
    ∧ (Gamelocker.matches d2o link tr g limit offset sort player team cas cae).2
        = .ok (((List.range (((effLimit limit + 49) / 50).toNat)).map res).flatten)
    ∧ (Gamelocker.matches d2o link tr g limit offset sort player team cas cae).1.map
          (fun rq => (getParam rq.params "page[limit]", getParam rq.params "page[offset]"))
        = (List.range (((effLimit limit + 49) / 50).toNat)).map
            (fun (i : Nat) => (some (PyVal.int (min (effLimit limit - 50 * (i : Int)) 50)),
              some (PyVal.int (effOffset offset + 50 * (i : Int))))) := by
  have hres0 : ∀ i, i < ((effLimit limit + 49) / 50).toNat →
      ∃ doc, tr (([] : List Request).length + i) = .ok doc
        ∧ getResult d2o link doc = .inr (res i) := by
    simpa using hres
  have hM : Gamelocker.matches d2o link tr g limit offset sort player team cas cae
      = (([] : List Request) ++ (List.range (((effLimit limit + 49) / 50).toNat)).map
          (fun (i : Nat) => matchesRequest g (loopParams
            (baseParams limit offset sort player team cas cae) (effOffset offset) 0
            (effLimit limit) (i + 1))),
         .ok (([] : List α)
          ++ ((List.range (((effLimit limit + 49) / 50).toNat)).map res).flatten)) := by
    rw [Gamelocker.matches, pyRange_zero_eq]
    exact matchesLoop_ok d2o link tr g (effOffset offset) _ 0 (effLimit limit) _ [] [] res hres0
  refine ⟨?_, ?_, ?_⟩
  · rw [hM]
    simp
  · rw [hM]
    simp
  · rw [hM]
    simp only [List.nil_append, List.map_map]
    apply List.map_congr_left
    intro i _
    simp only [Function.comp, matchesRequest]
    rw [getParam_loopParams_limit, getParam_loopParams_offset]
    have hoff : (0 : Int) + 50 * (i : Int) + effOffset offset
        = effOffset offset + 50 * (i : Int) := by ring
    rw [hoff]

/-- Witness for `c1_matches_pagination`: `matches(limit = 120)` against a
transport returning the singleton batch `[i]` for the `i`-th request issues
exactly 3 requests. -/
theorem c1_matches_pagination_witness :
    1 ≤ effLimit (some 120)
    ∧ (∀ i, i < ((effLimit (some 120) + 49) / 50).toNat →
        ∃ doc, trNat i = .ok doc
          ∧ getResult (fun (r : Nat) => r) (fun a _ => a) doc = .inr [i])
    ∧ (Gamelocker.matches (fun (r : Nat) => r) (fun a _ => a) trNat gTest (some 120) none
        none none none none none).1.length = 3 :=
  ⟨by decide, fun i _ => ⟨{ included := none, data := .inr [i] }, rfl, rfl⟩,
    ((c1_matches_pagination (fun r => r) (fun a _ => a) trNat gTest (some 120) none
        none none none none none (fun i => [i]) (by decide)
        (fun i _ => ⟨{ included := none, data := .inr [i] }, rfl, rfl⟩)).1).trans
      (by decide)⟩

/-- C3 counterexample: calling `matches()` with no arguments at all issues a
request that nevertheless carries `page[limit] = 50` and `page[offset] = 0`
— the claim that `page[limit]` and `page[offset]` are omitted when their
arguments were not supplied is false (the pagination loop always sets both). -/
theorem c3_counterexample :
    (Gamelocker.matches (fun (r : Nat) => r) (fun a _ => a) trNat gTest none none none
        none none none none).1.map
      (fun rq => (getParam rq.params "page[limit]", getParam rq.params "page[offset]"))
    = [(some (PyVal.int 50), some (PyVal.int 0))] := by decide

/-- C3 (amended): `sort`, `filter[playerNames]`, `filter[teamNames]`,
`filter[createdAt-start]` and `filter[createdAt-end]` are omitted from every
issued request when their arguments were not supplied, but `page[limit]` and
`page[offset]` are always present in every issued request — the pagination
loop sets them even when `limit`/`offset` were not supplied. -/
theorem c3_amended_param_omission {ρ α : Type} (d2o : ρ → α) (link : α → List α → α)
    (tr : Transport ρ) (g : Gamelocker) (limit offset : Option Int) (req : Request)
    (hreq : req ∈ (Gamelocker.matches d2o link tr g limit offset none none none
      none none).1) :
    getParam req.params "sort" = none
    ∧ getParam req.params "filter[playerNames]" = none
    ∧ getParam req.params "filter[teamNames]" = none
    ∧ getParam req.params "filter[createdAt-start]" = none
    ∧ getParam req.params "filter[createdAt-end]" = none
    ∧ (∃ v, getParam req.params "page[limit]" = some v)
    ∧ (∃ v, getParam req.params "page[offset]" = some v) := by
  rw [Gamelocker.matches] at hreq
  rcases matchesLoop_mem d2o link tr g _ _ _ _ _ _ req hreq with h | ⟨_, _, hpl, hpo, hother⟩
  · simp at h
  · refine ⟨?_, ?_, ?_, ?_, ?_, hpl, hpo⟩ <;>
      exact (hother _ (by decide) (by decide)).trans
        (baseParams_filters_none limit offset _ (by decide) (by decide))

/-- Witness for `c3_amended_param_omission` at a concrete no-argument call. -/
theorem c3_amended_param_omission_witness :
    (matchesRequest gTest [("page[limit]", PyVal.int 50), ("page[offset]", PyVal.int 0)]
      ∈ (Gamelocker.matches (fun (r : Nat) => r) (fun a _ => a) trNat gTest none none none
          none none none none).1)
    ∧ getParam (matchesRequest gTest
        [("page[limit]", PyVal.int 50), ("page[offset]", PyVal.int 0)]).params "sort"
      = none :=
  ⟨by decide, (c3_amended_param_omission (fun r => r) (fun a _ => a) trNat gTest none none
      (matchesRequest gTest [("page[limit]", PyVal.int 50), ("page[offset]", PyVal.int 0)])
      (by decide)).1⟩

/-- C4 counterexample: the list call `matches(limit = 1)` issues its request
at `shards/na/matches/` — with a trailing slash, because `_get` always
appends `"/" + elid` with `elid = ""` — not at the claimed `shards/na/matches`. -/
theorem c4_counterexample :
    (Gamelocker.matches (fun (r : Nat) => r) (fun a _ => a) trNat gTest (some 1) none none
        none none none none).1.map (fun rq => rq.url)
      = ["https://api.dc01.gamelockerapp.com/shards/na/matches/"]
    ∧ "https://api.dc01.gamelockerapp.com/shards/na/matches/"
        ≠ "https://api.dc01.gamelockerapp.com/shards/na/matches" :=
  ⟨by decide, by decide⟩

/-- C4 (amended): every shard-scoped request path is exactly
`shards/<region>/<endpoint>/<id>` where `<id>` is the empty string when no id
is supplied — so `match(id)` and `player(id)` request
`shards/<region>/matches/<id>` and `shards/<region>/players/<id>`, while
every `matches()` batch requests `shards/<region>/matches/` with a trailing
slash. -/
theorem c4_amended_paths {ρ α : Type} (d2o : ρ → α) (link : α → List α → α)
    (tr : Transport ρ) (g : Gamelocker) (elid : String) (limit offset : Option Int)
    (sort player team : Option String) (cas cae : Option DtOrStr) (req : Request)
    (hreq : req ∈ (Gamelocker.matches d2o link tr g limit offset sort player team
      cas cae).1) :
    (Gamelocker.matchOne d2o link tr g elid).2.1.map (fun rq => rq.url)
        = [g.apiurl ++ ("shards/" ++ g.region ++ "/" ++ "matches" ++ "/" ++ elid)]
    ∧ (Gamelocker.player d2o link tr g elid).2.1.map (fun rq => rq.url)
        = [g.apiurl ++ ("shards/" ++ g.region ++ "/" ++ "players" ++ "/" ++ elid)]
    ∧ req.url = g.apiurl ++ ("shards/" ++ g.region ++ "/" ++ "matches" ++ "/" ++ "") := by
  refine ⟨rfl, rfl, ?_⟩
  rw [Gamelocker.matches] at hreq
  rcases matchesLoop_mem d2o link tr g _ _ _ _ _ _ req hreq with h | ⟨hu, _⟩
  · simp at h
  · exact hu

/-- Witness for `c4_amended_paths` at a concrete `matches(limit = 1)` call. -/
theorem c4_amended_paths_witness :
    (matchesRequest gTest [("page[limit]", PyVal.int 1), ("page[offset]", PyVal.int 0)]
      ∈ (Gamelocker.matches (fun (r : Nat) => r) (fun a _ => a) trNat gTest (some 1) none
          none none none none none).1)
    ∧ (matchesRequest gTest [("page[limit]", PyVal.int 1), ("page[offset]", PyVal.int 0)]).url
        = gTest.apiurl ++ ("shards/" ++ gTest.region ++ "/" ++ "matches" ++ "/" ++ "") :=
  ⟨by decide, (c4_amended_paths (fun r => r) (fun a _ => a) trNat gTest "x" (some 1) none
      none none none none none
      (matchesRequest gTest [("page[limit]", PyVal.int 1), ("page[offset]", PyVal.int 0)])
      (by decide)).2.2⟩

/-- C5: every request issued by the client — `status`, `match`, `player`, and
every pagination batch of `matches` — carries exactly the headers
`Authorization: Bearer <apikey>`, `X-TITLE-ID: <title>` (the empty string
when no title has been selected, since `__init__` sets `title = ""`), and
`Accept: application/vnd.api+json`. -/
theorem c5_request_headers {ρ α : Type} (d2o : ρ → α) (link : α → List α → α)
    (tr : Transport ρ) (g : Gamelocker) (elid apikey datacenter : String)
    (limit offset : Option Int) (sort player team : Option String)
    (cas cae : Option DtOrStr) (req : Request)
    (hreq : req ∈ (Gamelocker.matches d2o link tr g limit offset sort player team
      cas cae).1) :
    (Gamelocker.status (ρ := ρ) tr g).2.1.map (fun rq => rq.headers)
        = [[("Authorization", "Bearer " ++ g.apikey), ("X-TITLE-ID", g.title),
            ("Accept", "application/vnd.api+json")]]
    ∧ (Gamelocker.matchOne d2o link tr g elid).2.1.map (fun rq => rq.headers)
        = [[("Authorization", "Bearer " ++ g.apikey), ("X-TITLE-ID", g.title),
            ("Accept", "application/vnd.api+json")]]
    ∧ (Gamelocker.player d2o link tr g elid).2.1.map (fun rq => rq.headers)
        = [[("Authorization", "Bearer " ++ g.apikey), ("X-TITLE-ID", g.title),
            ("Accept", "application/vnd.api+json")]]
    ∧ req.headers = [("Authorization", "Bearer " ++ g.apikey), ("X-TITLE-ID", g.title),
        ("Accept", "application/vnd.api+json")]
    ∧ (Gamelocker.construct apikey datacenter).title = "" := by
  refine ⟨rfl, rfl, rfl, ?_, rfl⟩
  rw [Gamelocker.matches] at hreq
  rcases matchesLoop_mem d2o link tr g _ _ _ _ _ _ req hreq with h | ⟨_, hh, _⟩
  · simp at h
  · exact hh

/-- Witness for `c5_request_headers` at a concrete no-argument call. -/
theorem c5_request_headers_witness :
    (matchesRequest gTest [("page[limit]", PyVal.int 50), ("page[offset]", PyVal.int 0)]
      ∈ (Gamelocker.matches (fun (r : Nat) => r) (fun a _ => a) trNat gTest none none none
          none none none none).1)
    ∧ (matchesRequest gTest
        [("page[limit]", PyVal.int 50), ("page[offset]", PyVal.int 0)]).headers
      = [("Authorization", "Bearer key"), ("X-TITLE-ID", "semc-vainglory"),
         ("Accept", "application/vnd.api+json")] :=
  ⟨by decide, (c5_request_headers (fun r => r) (fun a _ => a) trNat gTest "x" "k" "dc"
      none none none none none none none
      (matchesRequest gTest [("page[limit]", PyVal.int 50), ("page[offset]", PyVal.int 0)])
      (by decide)).2.2.2.1⟩

/-- C6: a non-2xx response fails the call immediately with no retry: if the
`k`-th batch request of a paginated `matches()` call fails, `matches` raises
that HTTP error having issued exactly `k + 1` requests and returns no
partial result; for `k = 0` the same transport failure also fails `status`,
`match` and `player` immediately. -/
theorem c6_error_propagation {ρ α : Type} (d2o : ρ → α) (link : α → List α → α)
    (tr : Transport ρ) (g : Gamelocker) (limit offset : Option Int)
    (sort player team : Option String) (cas cae : Option DtOrStr)
    (k : Nat) (res : Nat → List α) (e : Nat)
    (hk : k < ((effLimit limit + 49) / 50).toNat)
    (hres : ∀ i, i < k → ∃ doc, tr i = .ok doc ∧ getResult d2o link doc = .inr (res i))
    (herr : tr k = .error e) :
    ((Gamelocker.matches d2o link tr g limit offset sort player team cas cae).1.length
        = k + 1
      ∧ (Gamelocker.matches d2o link tr g limit offset sort player team cas cae).2
        = .error (.http e))
    ∧ (k = 0 →
        (Gamelocker.status (ρ := ρ) tr g).2.2 = .error e
        ∧ ∀ elid, (Gamelocker.matchOne d2o link tr g elid).2.2 = .error e
            ∧ (Gamelocker.player d2o link tr g elid).2.2 = .error e) := by
  have hres0 : ∀ i, i < k → ∃ doc, tr (([] : List Request).length + i) = .ok doc
      ∧ getResult d2o link doc = .inr (res i) := by simpa using hres
  have herr0 : tr (([] : List Request).length + k) = .error e := by simpa using herr
  have hM : Gamelocker.matches d2o link tr g limit offset sort player team cas cae
      = (([] : List Request) ++ (List.range (k + 1)).map (fun (i : Nat) =>
          matchesRequest g (loopParams (baseParams limit offset sort player team cas cae)
            (effOffset offset) 0 (effLimit limit) (i + 1))),
         .error (.http e)) := by
    rw [Gamelocker.matches, pyRange_zero_eq]
    exact matchesLoop_err d2o link tr g (effOffset offset) _ k 0 (effLimit limit) _ [] []
      res e hk hres0 herr0
  refine ⟨⟨?_, ?_⟩, ?_⟩
  · rw [hM]
    simp
  · rw [hM]
  · intro hk0
    subst hk0
    refine ⟨?_, ?_⟩
    · simpa [Gamelocker.status, Gamelocker.req] using herr
    · intro elid
      constructor <;>
        simp [Gamelocker.matchOne, Gamelocker.player, Gamelocker.get, Gamelocker.req,
          herr, Except.map]

/-- Witness for `c6_error_propagation`: a transport failing with HTTP 404 on
the first request aborts `matches(limit = 120)` immediately. -/
theorem c6_error_propagation_witness :
    0 < ((effLimit (some 120) + 49) / 50).toNat
    ∧ trFail 0 = .error 404
    ∧ (Gamelocker.matches (fun (r : Nat) => r) (fun a _ => a) trFail gTest (some 120) none
        none none none none none).2 = .error (.http 404) :=
  ⟨by decide, rfl,
    ((c6_error_propagation (fun r => r) (fun a _ => a) trFail gTest (some 120) none
        none none none none none 0 (fun _ => []) 404 (by decide)
        (fun i hi => absurd hi (Nat.not_lt_zero i)) rfl).1).2⟩
